import Mathlib

/-
Verification of the kopelox ffmpeg worker against its specification.

The HTTP worker in src/ffmpegWorkerDummy.py handles POST job submissions:
it parses the body with json.loads, reads job_type, job_id and
contribution_id from the resulting dict (with defaults), and answers with
a constant success payload; any exception inside the handler is caught and
answered with a 500 response carrying an error field.  We embed the
handler as a pure function from the parse result of the request body to a
response, threading an explicit filesystem state and effect trace for the
frame conditions (the handler performs no filesystem, network or
subprocess operation).

The mosaic layout planner described in the specification has no
implementation under src/, so its grid geometry is modelled from the
specification text and verified against the stated invariants.
-/

namespace KopeloxWorker

/-- JSON values as returned by json.loads: null, booleans, numbers
(modelled as rationals), strings, arrays and objects. -/
inductive Json where
  | null : Json
  | bool (b : Bool) : Json
  | num (q : ℚ) : Json
  | str (s : String) : Json
  | arr (elems : List Json) : Json
  | obj (fields : List (String × Json)) : Json

/-- Lookup of a key in the field list of an object, last binding winning,
matching Python dict semantics after json.loads. -/
def lookupField (fields : List (String × Json)) (k : String) : Option Json :=
  fields.foldl (fun acc p => if p.1 = k then some p.2 else acc) none

/-- Access a field of a response body object; none when the key is absent
or the value is not an object. -/
def Json.get (j : Json) (k : String) : Option Json :=
  match j with
  | Json.obj fields => lookupField fields k
  | _ => none

/-- An HTTP response: status code and JSON body. -/
structure Response where
  status : Nat
  body : Json

/-- External effects the worker could perform on collaborators; the dummy
handler performs none of them. -/
inductive Effect where
  | fetchUrl (url : String) : Effect
  | runEngine (args : List String) : Effect
  | uploadArtifact (path : String) : Effect
  | makeWorkspace (path : String) : Effect
  | removePath (path : String) : Effect

/-- The constant success payload built by DummyHandler.do_POST
(src/ffmpegWorkerDummy.py lines 39-48), with the three values read from
the contract spliced in. -/
def dummyResult (job_type job_id contribution_id : Json) : Json :=
  Json.obj [
    ("success", Json.bool true),
    ("job_id", job_id),
    ("contribution_id", contribution_id),
    ("job_type", job_type),
    ("offset_seconds", Json.num (123 / 100)),
    ("confidence_score", Json.num (85 / 100)),
    ("algorithm", Json.str "DUMMY_TEST"),
    ("message", Json.str "Pipeline test - no actual processing")
  ]

/-- The 500 response built in the except branch of do_POST
(src/ffmpegWorkerDummy.py lines 58-64). -/
def errorResponse (msg : String) : Response :=
  { status := 500, body := Json.obj [("error", Json.str msg)] }

/-- DummyHandler.do_POST (src/ffmpegWorkerDummy.py lines 26-64) as a
function of the json.loads outcome on the request body: none models a
body that does not parse as JSON (json.loads raises, caught by the
except branch); a parsed non-object value makes the .get attribute
lookups raise AttributeError, likewise caught; a parsed object yields
the constant success payload with status 200. -/
def do_POST (parsedBody : Option Json) : Response :=
  match parsedBody with
  | none => errorResponse "Expecting value: line 1 column 1 (char 0)"
  | some (Json.obj fields) =>
      { status := 200,
        body := dummyResult
          ((lookupField fields "job_type").getD Json.null)
          ((lookupField fields "job_id").getD (Json.str "unknown"))
          ((lookupField fields "contribution_id").getD (Json.str "unknown")) }
  | some _ => errorResponse "object has no attribute get"

/-- do_POST with the ambient state made explicit: the list of filesystem
paths that exist and the trace of external effects performed.  The source
of do_POST contains no filesystem, network or subprocess call, so the
filesystem is returned unchanged and the trace is empty. -/
def do_POST_run (fs : List String) (parsedBody : Option Json) :
    List String × List Effect × Response :=
  (fs, [], do_POST parsedBody)

/-- Modelled from the spec: the Mosaic Layout Planner of spec section 4.3
has no implementation under src/.  Column count of the grid for n tiles:
the ceiling of the square root of n. -/
def gridCols (n : ℕ) : ℕ :=
  if Nat.sqrt n * Nat.sqrt n = n then Nat.sqrt n else Nat.sqrt n + 1

/-- Modelled from the spec: row count of the grid, the ceiling of
n / cols. -/
def gridRows (n : ℕ) : ℕ :=
  (n + gridCols n - 1) / gridCols n

/-- Modelled from the spec: rounding a pixel dimension down to the
nearest even integer (encoder constraint). -/
def evenFloor (m : ℕ) : ℕ :=
  2 * (m / 2)

/-- Modelled from the spec: tile width, floor(output_width / cols)
rounded down to even. -/
def tileWidth (n outputWidth : ℕ) : ℕ :=
  evenFloor (outputWidth / gridCols n)

/-- Modelled from the spec: tile height, floor(output_height / rows)
rounded down to even. -/
def tileHeight (n outputHeight : ℕ) : ℕ :=
  evenFloor (outputHeight / gridRows n)

lemma gridCols_pos {n : ℕ} (hn : 1 ≤ n) : 0 < gridCols n := by
  unfold gridCols
  split
  · have : 0 < Nat.sqrt n := Nat.sqrt_pos.mpr hn
    omega
  · omega

lemma gridRows_eq {n : ℕ} (hn : 1 ≤ n) :
    gridRows n = (n - 1) / gridCols n + 1 := by
  have hc := gridCols_pos hn
  unfold gridRows
  have h1 : n + gridCols n - 1 = (n - 1) + gridCols n := by omega
  rw [h1, Nat.add_div_right _ hc]

lemma gridRows_pos {n : ℕ} (hn : 1 ≤ n) : 0 < gridRows n := by
  rw [gridRows_eq hn]; exact Nat.succ_pos _

lemma some_str_ne {s t : String} (h : s ≠ t) :
    (some (Json.str s) : Option Json) ≠ some (Json.str t) := by
  intro hc
  have h1 : Json.str s = Json.str t := by injection hc
  have h2 : s = t := by injection h1
  exact h h2

lemma some_num_ne {q r : ℚ} (h : q ≠ r) :
    (some (Json.num q) : Option Json) ≠ some (Json.num r) := by
  intro hc
  have h1 : Json.num q = Json.num r := by injection hc
  have h2 : q = r := by injection h1
  exact h h2

/-- Field list of an offset_detection job contract whose master audio URL
points at an unreachable TEST-NET host. -/
def offsetJobUnreachableFields : List (String × Json) :=
  [("job_type", Json.str "offset_detection"),
   ("job_id", Json.str "job-1"),
   ("contribution_id", Json.str "contrib-1"),
   ("master_audio_url", Json.str "http://192.0.2.1/master.wav"),
   ("user_video_url", Json.str "http://192.0.2.1/clip.mp4")]

/-- The offset job contract with an unreachable master audio URL. -/
def offsetJobUnreachable : Json :=
  Json.obj offsetJobUnreachableFields

/-- Field list of a choir_render job contract with zero clips. -/
def renderJobZeroClipsFields : List (String × Json) :=
  [("job_type", Json.str "choir_render"),
   ("job_id", Json.str "job-2"),
   ("contribution_id", Json.str "contrib-2"),
   ("clips", Json.arr []),
   ("output_width", Json.num 1920),
   ("output_height", Json.num 1080)]

/-- The render job contract with zero clips. -/
def renderJobZeroClips : Json :=
  Json.obj renderJobZeroClipsFields

/-- A choir_render job contract carrying one clip descriptor. -/
def renderJobOneClip : Json :=
  Json.obj
    [("job_type", Json.str "choir_render"),
     ("job_id", Json.str "job-3"),
     ("clips", Json.arr
       [Json.obj [("video_url", Json.str "http://192.0.2.1/c0.mp4"),
                  ("offset_seconds", Json.num 2),
                  ("gain", Json.num 1)]])]

/-- Counterexample to claim C1: on an offset_detection job whose master
audio URL is unreachable, the handler answers with algorithm DUMMY_TEST,
offset_seconds 1.23 and confidence_score 0.85, not with the Fallback
algorithm, the 10.0 second default offset and confidence 0.5 the claim
requires. -/
theorem claim_C1_counterexample :
    (do_POST (some offsetJobUnreachable)).body.get "algorithm"
        = some (Json.str "DUMMY_TEST") ∧
    (do_POST (some offsetJobUnreachable)).body.get "algorithm"
        ≠ some (Json.str "Fallback") ∧
    (do_POST (some offsetJobUnreachable)).body.get "offset_seconds"
        ≠ some (Json.num 10) ∧
    (do_POST (some offsetJobUnreachable)).body.get "confidence_score"
        ≠ some (Json.num (1 / 2)) :=
  ⟨rfl, some_str_ne (by decide), some_num_ne (by norm_num), some_num_ne (by norm_num)⟩

/-- Claim C1 (amended): for every offset_detection job, whatever its
payload and whether or not its media URLs are reachable, the handler
answers success with the constant fields algorithm DUMMY_TEST,
offset_seconds 1.23 and confidence_score 0.85; no Fallback branch
exists in the dummy worker. -/
theorem claim_C1 (fields : List (String × Json))
    (_hjt : lookupField fields "job_type" = some (Json.str "offset_detection")) :
    (do_POST (some (Json.obj fields))).status = 200 ∧
    (do_POST (some (Json.obj fields))).body.get "success" = some (Json.bool true) ∧
    (do_POST (some (Json.obj fields))).body.get "algorithm"
        = some (Json.str "DUMMY_TEST") ∧
    (do_POST (some (Json.obj fields))).body.get "offset_seconds"
        = some (Json.num (123 / 100)) ∧
    (do_POST (some (Json.obj fields))).body.get "confidence_score"
        = some (Json.num (85 / 100)) :=
  ⟨rfl, rfl, rfl, rfl, rfl⟩

/-- Witness for claim C1 at the concrete unreachable offset job. -/
theorem claim_C1_witness :
    (do_POST (some (Json.obj offsetJobUnreachableFields))).body.get "algorithm"
        = some (Json.str "DUMMY_TEST") :=
  (claim_C1 offsetJobUnreachableFields rfl).2.2.1

/-- Claim C2: every offset_detection job contract that reaches the
handler as a JSON object, whatever its payload, gets a 200 success
response carrying success true and no error field. -/
theorem claim_C2 (fields : List (String × Json))
    (_hjt : lookupField fields "job_type" = some (Json.str "offset_detection")) :
    (do_POST (some (Json.obj fields))).status = 200 ∧
    (do_POST (some (Json.obj fields))).body.get "success" = some (Json.bool true) ∧
    (do_POST (some (Json.obj fields))).body.get "error" = none :=
  ⟨rfl, rfl, rfl⟩

/-- Witness for claim C2 at a minimal offset job contract. -/
theorem claim_C2_witness :
    (do_POST (some (Json.obj [("job_type", Json.str "offset_detection")]))).status
        = 200 :=
  (claim_C2 [("job_type", Json.str "offset_detection")] rfl).1

/-- Counterexample to claim C3: the render job with zero clips gets a 200
success response with success true and no error field, where the claim
requires an explicit error instead of success. -/
theorem claim_C3_counterexample :
    (do_POST (some renderJobZeroClips)).status = 200 ∧
    (do_POST (some renderJobZeroClips)).body.get "success" = some (Json.bool true) ∧
    (do_POST (some renderJobZeroClips)).body.get "error" = none :=
  ⟨rfl, rfl, rfl⟩

/-- Claim C3 (amended): every choir_render job, the zero-clip job
included, gets a 200 success response with success true and no error
field, and the handler performs no external effect at all, so in
particular no engine invocation is attempted. -/
theorem claim_C3 (fs : List String) (fields : List (String × Json))
    (_hjt : lookupField fields "job_type" = some (Json.str "choir_render")) :
    (do_POST_run fs (some (Json.obj fields))).2.1 = [] ∧
    (do_POST_run fs (some (Json.obj fields))).2.2.status = 200 ∧
    (do_POST_run fs (some (Json.obj fields))).2.2.body.get "success"
        = some (Json.bool true) ∧
    (do_POST_run fs (some (Json.obj fields))).2.2.body.get "error" = none :=
  ⟨rfl, rfl, rfl, rfl⟩

/-- Witness for claim C3 at the concrete zero-clip render job. -/
theorem claim_C3_witness :
    (do_POST_run [] (some (Json.obj renderJobZeroClipsFields))).2.1 = [] ∧
    (do_POST_run [] (some (Json.obj renderJobZeroClipsFields))).2.2.status = 200 :=
  ⟨(claim_C3 [] renderJobZeroClipsFields rfl).1,
   (claim_C3 [] renderJobZeroClipsFields rfl).2.1⟩

/-- Counterexample to claim C4: a choir_render submission succeeds with
status 200, yet the response carries none of the render-specific fields
output_video_url, clip_count and grid_layout the claim requires. -/
theorem claim_C4_counterexample :
    (do_POST (some renderJobOneClip)).status = 200 ∧
    (do_POST (some renderJobOneClip)).body.get "success" = some (Json.bool true) ∧
    (do_POST (some renderJobOneClip)).body.get "output_video_url" = none ∧
    (do_POST (some renderJobOneClip)).body.get "clip_count" = none ∧
    (do_POST (some renderJobOneClip)).body.get "grid_layout" = none :=
  ⟨rfl, rfl, rfl, rfl, rfl⟩

/-- Claim C4 (amended): every successful submission, for either job
type, answers with success, job_id and the offset-specific fields
offset_seconds, confidence_score and algorithm; the render-specific
fields output_video_url, clip_count and grid_layout are never present. -/
theorem claim_C4 (fields : List (String × Json)) :
    (do_POST (some (Json.obj fields))).status = 200 ∧
    (do_POST (some (Json.obj fields))).body.get "success" = some (Json.bool true) ∧
    ((do_POST (some (Json.obj fields))).body.get "job_id").isSome = true ∧
    (do_POST (some (Json.obj fields))).body.get "offset_seconds"
        = some (Json.num (123 / 100)) ∧
    (do_POST (some (Json.obj fields))).body.get "confidence_score"
        = some (Json.num (85 / 100)) ∧
    (do_POST (some (Json.obj fields))).body.get "algorithm"
        = some (Json.str "DUMMY_TEST") ∧
    (do_POST (some (Json.obj fields))).body.get "output_video_url" = none ∧
    (do_POST (some (Json.obj fields))).body.get "clip_count" = none ∧
    (do_POST (some (Json.obj fields))).body.get "grid_layout" = none :=
  ⟨rfl, rfl, rfl, rfl, rfl, rfl, rfl, rfl, rfl⟩

/-- Claim C6: every offset job response carries a non-negative
offset_seconds and a confidence_score inside the closed interval
from 0 to 1. -/
theorem claim_C6 (fields : List (String × Json))
    (_hjt : lookupField fields "job_type" = some (Json.str "offset_detection")) :
    (∃ q : ℚ, (do_POST (some (Json.obj fields))).body.get "offset_seconds"
        = some (Json.num q) ∧ 0 ≤ q) ∧
    (∃ p : ℚ, (do_POST (some (Json.obj fields))).body.get "confidence_score"
        = some (Json.num p) ∧ 0 ≤ p ∧ p ≤ 1) :=
  ⟨⟨123 / 100, rfl, by norm_num⟩, ⟨85 / 100, rfl, by norm_num, by norm_num⟩⟩

/-- Witness for claim C6 at the concrete unreachable offset job. -/
theorem claim_C6_witness :
    ∃ p : ℚ, (do_POST (some (Json.obj offsetJobUnreachableFields))).body.get
        "confidence_score" = some (Json.num p) ∧ 0 ≤ p ∧ p ≤ 1 :=
  (claim_C6 offsetJobUnreachableFields rfl).2

/-- Claim C7: the handler is total: every POST body, one that does not
parse as JSON included, gets either a 200 response or a structured 500
response carrying an error field; in particular a body that fails JSON
parsing gets the structured 500 error response, and no exception
escapes. -/
theorem claim_C7 (parsedBody : Option Json) :
    ((do_POST parsedBody).status = 200 ∨
      ((do_POST parsedBody).status = 500 ∧
        ((do_POST parsedBody).body.get "error").isSome = true)) ∧
    (parsedBody = none →
      (do_POST parsedBody).status = 500 ∧
      ((do_POST parsedBody).body.get "error").isSome = true) := by
  constructor
  · match parsedBody with
    | none => exact Or.inr ⟨rfl, rfl⟩
    | some Json.null => exact Or.inr ⟨rfl, rfl⟩
    | some (Json.bool b) => exact Or.inr ⟨rfl, rfl⟩
    | some (Json.num q) => exact Or.inr ⟨rfl, rfl⟩
    | some (Json.str s) => exact Or.inr ⟨rfl, rfl⟩
    | some (Json.arr xs) => exact Or.inr ⟨rfl, rfl⟩
    | some (Json.obj fields) => exact Or.inl rfl
  · intro h
    subst h
    exact ⟨rfl, rfl⟩

/-- Witness for claim C7 at the unparsable body. -/
theorem claim_C7_witness :
    (do_POST none).status = 500 ∧ ((do_POST none).body.get "error").isSome = true :=
  (claim_C7 none).2 rfl

/-- Claim C8: the handler leaves the filesystem exactly as it found it,
so any path absent before the request, a job workspace directory in
particular, is still absent after the handler returns. -/
theorem claim_C8 (fs : List String) (parsedBody : Option Json) (p : String) :
    (do_POST_run fs parsedBody).1 = fs ∧
    (p ∉ fs → p ∉ (do_POST_run fs parsedBody).1) :=
  ⟨rfl, fun h => h⟩

/-- Witness for claim C8 at a concrete filesystem and workspace path. -/
theorem claim_C8_witness :
    (do_POST_run ["/srv/preexisting"] (some (Json.obj []))).1 = ["/srv/preexisting"] ∧
    "/tmp/work/job-1" ∉ (do_POST_run ["/srv/preexisting"] (some (Json.obj []))).1 :=
  ⟨(claim_C8 ["/srv/preexisting"] (some (Json.obj [])) "/tmp/work/job-1").1,
   (claim_C8 ["/srv/preexisting"] (some (Json.obj [])) "/tmp/work/job-1").2 (by simp)⟩

/-- Counterexample to claim C9: the body consisting of an empty JSON
array parses as JSON, yet the handler answers 500 with an error field
and none of the constant result fields, because the attribute lookups
raise on a non-dict value. -/
theorem claim_C9_counterexample :
    (do_POST (some (Json.arr []))).status = 500 ∧
    (do_POST (some (Json.arr []))).body.get "offset_seconds" = none ∧
    (do_POST (some (Json.arr []))).body.get "algorithm" = none ∧
    ((do_POST (some (Json.arr []))).body.get "error").isSome = true :=
  ⟨rfl, rfl, rfl, rfl⟩

/-- Claim C9 (amended): for every POST body that parses as a JSON
object, whatever its job_type and payload, the handler answers the
constant fields offset_seconds 1.23, confidence_score 0.85 and algorithm
DUMMY_TEST, performs no external effect and leaves the filesystem
untouched; a body that parses as a non-object JSON value instead gets
the 500 error response. -/
theorem claim_C9 (fs : List String) (fields : List (String × Json)) :
    (do_POST_run fs (some (Json.obj fields))).2.1 = [] ∧
    (do_POST_run fs (some (Json.obj fields))).1 = fs ∧
    (do_POST (some (Json.obj fields))).body.get "offset_seconds"
        = some (Json.num (123 / 100)) ∧
    (do_POST (some (Json.obj fields))).body.get "confidence_score"
        = some (Json.num (85 / 100)) ∧
    (do_POST (some (Json.obj fields))).body.get "algorithm"
        = some (Json.str "DUMMY_TEST") :=
  ⟨rfl, rfl, rfl, rfl, rfl⟩

/-- Claim C10: a JSON object body missing job_id or contribution_id is
not rejected: the handler substitutes the string unknown for each
missing field and still answers success. -/
theorem claim_C10 (fields : List (String × Json)) :
    (do_POST (some (Json.obj fields))).status = 200 ∧
    (do_POST (some (Json.obj fields))).body.get "success" = some (Json.bool true) ∧
    (lookupField fields "job_id" = none →
      (do_POST (some (Json.obj fields))).body.get "job_id"
        = some (Json.str "unknown")) ∧
    (lookupField fields "contribution_id" = none →
      (do_POST (some (Json.obj fields))).body.get "contribution_id"
        = some (Json.str "unknown")) := by
  refine ⟨rfl, rfl, fun h => ?_, fun h => ?_⟩
  · show some ((lookupField fields "job_id").getD (Json.str "unknown")) = _
    rw [h]; rfl
  · show some ((lookupField fields "contribution_id").getD (Json.str "unknown")) = _
    rw [h]; rfl

/-- Witness for claim C10 at a contract carrying only a job_type. -/
theorem claim_C10_witness :
    (do_POST (some (Json.obj [("job_type", Json.str "offset_detection")]))).body.get
        "job_id" = some (Json.str "unknown") ∧
    (do_POST (some (Json.obj [("job_type", Json.str "offset_detection")]))).body.get
        "contribution_id" = some (Json.str "unknown") :=
  ⟨(claim_C10 [("job_type", Json.str "offset_detection")]).2.2.1 rfl,
   (claim_C10 [("job_type", Json.str "offset_detection")]).2.2.2 rfl⟩

/-- Claim C5: for every clip count n of at least 1, the grid columns are
the ceiling of the square root of n (stated as: the least c with
n at most c times c), the rows cover all clips with a minimal last row,
and the even-rounded tile dimensions are even and positive whenever the
output resolution is at least 2 cols by 2 rows pixels. -/
theorem claim_C5 (n : ℕ) (hn : 1 ≤ n) (outputWidth outputHeight : ℕ) :
    (n ≤ gridCols n * gridCols n ∧ ∀ c : ℕ, n ≤ c * c → gridCols n ≤ c) ∧
    n ≤ gridRows n * gridCols n ∧
    (gridRows n - 1) * gridCols n < n ∧
    (2 * gridCols n ≤ outputWidth →
      Even (tileWidth n outputWidth) ∧ 0 < tileWidth n outputWidth) ∧
    (2 * gridRows n ≤ outputHeight →
      Even (tileHeight n outputHeight) ∧ 0 < tileHeight n outputHeight) := by
  have hc := gridCols_pos hn
  have hr := gridRows_pos hn
  have hchar : n ≤ gridCols n * gridCols n ∧ ∀ c : ℕ, n ≤ c * c → gridCols n ≤ c := by
    constructor
    · unfold gridCols
      split
      · next h => omega
      · next h => exact le_of_lt (Nat.lt_succ_sqrt n)
    · intro c hcc
      have hsc : Nat.sqrt n ≤ c := by
        have h1 := Nat.sqrt_le_sqrt hcc
        rwa [Nat.sqrt_eq] at h1
      unfold gridCols
      split
      · exact hsc
      · next h =>
        have hne : Nat.sqrt n ≠ c := by
          intro he
          apply h
          have h1 : Nat.sqrt n * Nat.sqrt n ≤ n := Nat.sqrt_le n
          have h2 : n ≤ Nat.sqrt n * Nat.sqrt n := he ▸ hcc
          omega
        omega
  have hrows : gridRows n = (n - 1) / gridCols n + 1 := gridRows_eq hn
  have hq := Nat.div_add_mod' (n - 1) (gridCols n)
  have hm : (n - 1) % gridCols n < gridCols n := Nat.mod_lt _ hc
  have hle : (n - 1) / gridCols n * gridCols n ≤ n - 1 := Nat.div_mul_le_self _ _
  have hbound1 : n ≤ gridRows n * gridCols n := by
    rw [hrows, add_one_mul]
    omega
  have hbound2 : (gridRows n - 1) * gridCols n < n := by
    rw [hrows]
    simp only [Nat.add_sub_cancel]
    omega
  have htw : 2 * gridCols n ≤ outputWidth →
      Even (tileWidth n outputWidth) ∧ 0 < tileWidth n outputWidth := by
    intro hW
    have h2 : 2 ≤ outputWidth / gridCols n := (Nat.le_div_iff_mul_le hc).mpr hW
    constructor
    · exact ⟨outputWidth / gridCols n / 2, by unfold tileWidth evenFloor; omega⟩
    · unfold tileWidth evenFloor
      omega
  have hth : 2 * gridRows n ≤ outputHeight →
      Even (tileHeight n outputHeight) ∧ 0 < tileHeight n outputHeight := by
    intro hH
    have h2 : 2 ≤ outputHeight / gridRows n := (Nat.le_div_iff_mul_le hr).mpr hH
    constructor
    · exact ⟨outputHeight / gridRows n / 2, by unfold tileHeight evenFloor; omega⟩
    · unfold tileHeight evenFloor
      omega
  exact ⟨hchar, hbound1, hbound2, htw, hth⟩

/-- Witness for claim C5 at the spec scenario of 5 clips on a 1920 by
1080 canvas: 3 columns, 2 rows, 640 by 540 tiles. -/
theorem claim_C5_witness :
    gridCols 5 = 3 ∧ gridRows 5 = 2 ∧
    tileWidth 5 1920 = 640 ∧ tileHeight 5 1080 = 540 ∧
    5 ≤ gridRows 5 * gridCols 5 ∧
    0 < tileWidth 5 1920 ∧ 0 < tileHeight 5 1080 := by
  have hs : Nat.sqrt 5 = 2 := by
    have h := Nat.eq_sqrt.mpr
      (⟨by norm_num, by norm_num⟩ : 2 * 2 ≤ 5 ∧ 5 < (2 + 1) * (2 + 1))
    exact h.symm
  have hcols : gridCols 5 = 3 := by simp [gridCols, hs]
  have hrows : gridRows 5 = 2 := by simp [gridRows, hcols]
  have hw : tileWidth 5 1920 = 640 := by simp [tileWidth, evenFloor, hcols]
  have hh : tileHeight 5 1080 = 540 := by simp [tileHeight, evenFloor, hrows]
  obtain ⟨-, h1, -, h3, h4⟩ := claim_C5 5 (by norm_num) 1920 1080
  refine ⟨hcols, hrows, hw, hh, h1, ?_, ?_⟩
  · exact (h3 (by rw [hcols]; norm_num)).2
  · exact (h4 (by rw [hrows]; norm_num)).2

end KopeloxWorker
